import Mathlib

/-!
Verification development for httpns (src/httpns.js), a name-based
multi-tenant TLS+HTTP front door. The JavaScript source is shallowly
embedded below: byte strings are modelled as lists of characters whose
char code equals the byte value, the domain registry as a function from
domain names to optional entry values, and the event-driven parts
(socket splicing, dispatch, lifecycle) as explicit traces of the actions
the source registers or performs.
-/

/-! ### JavaScript string primitives

Models of the exact JS string operations used by httpns.js:
`indexOf`, `lastIndexOf`, `substring` (with its clamp-and-swap
semantics), `trim` and `split` on the two-character CRLF separator. -/

/-- First index of character `c` in a list, as JS `String.prototype.indexOf`
computes it, returned as `some i` (JS -1 becomes `none`). -/
def jsIndexOfA (c : Char) : List Char → Option Nat
  | [] => none
  | x :: xs => if x = c then some 0 else (jsIndexOfA c xs).map (· + 1)

/-- JS `indexOf`: first index of `c` or `-1`. -/
def jsIndexOf (l : List Char) (c : Char) : Int :=
  match jsIndexOfA c l with
  | some n => (n : Int)
  | none => -1

/-- JS `lastIndexOf`: last index of `c` or `-1`, computed from the reverse. -/
def jsLastIndexOf (l : List Char) (c : Char) : Int :=
  match jsIndexOfA c l.reverse with
  | some n => (l.length : Int) - 1 - (n : Int)
  | none => -1

/-- JS `substring` index clamping: negative indices to 0, overlong to length. -/
def clampIdx (n : Nat) (i : Int) : Nat := min i.toNat n

/-- JS `String.prototype.substring(a, b)`: clamp both indices into the
string, swap when out of order, take the slice. -/
def jsSubstring (l : List Char) (a b : Int) : List Char :=
  let x := clampIdx l.length a
  let y := clampIdx l.length b
  (l.take (max x y)).drop (min x y)

/-- JS whitespace as relevant to `String.prototype.trim`. -/
def jsIsWS (c : Char) : Bool :=
  c = ' ' ∨ c = '\t' ∨ c = '\n' ∨ c = '\r' ∨ c = '\x0b' ∨ c = '\x0c'

/-- JS `String.prototype.trim`: strip whitespace from both ends. -/
def jsTrim (l : List Char) : List Char :=
  ((l.dropWhile jsIsWS).reverse.dropWhile jsIsWS).reverse

/-- JS `split('\r\n')`: cut the list at every CRLF occurrence. -/
def splitCRLF : List Char → List (List Char)
  | [] => [[]]
  | '\r' :: '\n' :: rest => [] :: splitCRLF rest
  | c :: rest =>
    match splitCRLF rest with
    | [] => [[c]]
    | s :: ss => (c :: s) :: ss

/-! ### HTTP response construction (function `headers`, httpns.js:143-151)

Builds the response head: status line from the code and Node's
STATUS_CODES table, then one `key: value` line per supplied header,
joined with CRLF and terminated by a blank line. -/

/-- Node STATUS_CODES reason phrases for the codes httpns.js uses. -/
def statusCodes (code : Nat) : List Char :=
  if code = 308 then "Permanent Redirect".data
  else if code = 400 then "Bad Request".data
  else if code = 500 then "Internal Server Error".data
  else []

/-- JS `array.join('\r\n')`. -/
def joinCRLF : List (List Char) → List Char
  | [] => []
  | [x] => x
  | x :: xs => x ++ "\r\n".data ++ joinCRLF xs

/-- Model of `headers(code, data)` (httpns.js:143-151): status line followed
by the supplied header pairs in order, CRLF-joined, plus a blank line. -/
def headers (code : Nat) (data : List (List Char × List Char)) : List Char :=
  joinCRLF (("HTTP/1.1 ".data ++ (Nat.repr code).data ++ " ".data ++ statusCodes code)
    :: data.map (fun kv => kv.1 ++ ": ".data ++ kv.2)) ++ "\r\n\r\n".data

/-! ### Front-end multiplexer (function `socketForwarder`, httpns.js:169-213)

The first `data` event decides the fate of a public connection: first
byte 22 (0x16) opens a relay connection and splices; anything else is
parsed as plaintext HTTP and answered with a 308 redirect or a 400
error. Bytes are modelled as characters whose code point is the byte
value. -/

/-- The two sockets tied together by the relay: the accepted public
socket and the connection to the internal relay channel. -/
inductive Side
  | sock
  | conn
deriving DecidableEq

/-- Socket lifecycle events the code installs handlers for. -/
inductive SockEvent
  | errorEv
  | endEv
deriving DecidableEq

/-- Actions a handler body performs. -/
inductive TermAction
  | endSide (s : Side)
deriving DecidableEq

/-- Wiring actions the TLS branch of `socketForwarder` performs, in
source order. -/
inductive SpliceAction
  | connectTo (path : List Char)
  | pipe (src dst : Side)
  | write (dst : Side) (bytes : List Char)
  | onEvent (s : Side) (e : SockEvent) (handler : List TermAction)
deriving DecidableEq

/-- The TLS branch (httpns.js:173-189): connect to the relay channel at
the configured path, pipe both directions, forward the already-read
first chunk, and install the four once-handlers exactly as written:
conn error ends conn, conn end ends socket, socket error ends socket,
socket end ends conn. -/
def tlsBranch (cfgPath data : List Char) : List SpliceAction :=
  [.connectTo cfgPath,
   .pipe .sock .conn,
   .pipe .conn .sock,
   .write .conn data,
   .onEvent .conn .errorEv [.endSide .conn],
   .onEvent .conn .endEv [.endSide .sock],
   .onEvent .sock .errorEv [.endSide .sock],
   .onEvent .sock .endEv [.endSide .conn]]

/-- Bytes explicitly written to `dst` by the wiring actions, in order. -/
def writesTo (dst : Side) : List SpliceAction → List Char
  | [] => []
  | .write d bs :: rest => (if d = dst then bs else []) ++ writesTo dst rest
  | _ :: rest => writesTo dst rest

/-- Sources piped into `dst` by the wiring actions. -/
def pipedInto (dst : Side) (acts : List SpliceAction) : List Side :=
  acts.filterMap fun a =>
    match a with
    | .pipe s d => if d = dst then some s else none
    | _ => none

/-- Total byte stream `dst` receives: the synchronous writes of the
wiring block happen before any further chunk arrives, and every later
chunk of a piped source is forwarded unmodified in arrival order. -/
def deliveredTo (acts : List SpliceAction) (dst : Side) (laterFrom : Side → List (List Char)) : List Char :=
  writesTo dst acts ++ ((pipedInto dst acts).map (fun s => (laterFrom s).flatten)).flatten

/-- Handler bodies installed for event `e` on side `s`. -/
def handlersFor (acts : List SpliceAction) (s : Side) (e : SockEvent) : List (List TermAction) :=
  acts.filterMap fun a =>
    match a with
    | .onEvent s' e' h => if s' = s ∧ e' = e then some h else none
    | _ => none

/-- What the socket writes back on the plaintext path: the header block
passed to `socket.write` and the body passed to `socket.end`. Both
branches end the connection. -/
structure HttpOut where
  written : List Char
  endBody : List Char
deriving DecidableEq

/-- The plaintext branch (httpns.js:192-211): split the chunk into lines
on CRLF after trimming; with at least two lines, take everything after
the first space of line 2 as the domain and the slice between the first
and last space of line 1 as the url; a registered domain gets the 308
redirect, everything else falls through to the 400 response. -/
def plaintextBranch (hasD : List Char → Bool) (data : List Char) : HttpOut :=
  let parse := splitCRLF (jsTrim data)
  if parse.length > 1 then
    let l0 := parse.getD 0 []
    let l1 := parse.getD 1 []
    let domain := jsSubstring l1 (jsIndexOf l1 ' ' + 1) (l1.length : Int)
    let url := jsSubstring l0 (jsIndexOf l0 ' ' + 1) (jsLastIndexOf l0 ' ')
    if hasD domain then
      { written := headers 308 [("Content-Type".data, "text/plain".data),
          ("Location".data, "https://".data ++ domain ++ url),
          ("Connection".data, "closed".data)],
        endBody := "Response 308: Redirecting to secured request.".data }
    else
      { written := headers 400 [("Content-Type".data, "text/plain".data),
          ("Connection".data, "closed".data)],
        endBody := "Error 400: Unknown domain; Domain incorrectly pointing to this server.".data }
  else
    { written := headers 400 [("Content-Type".data, "text/plain".data),
        ("Connection".data, "closed".data)],
      endBody := "Error 400: Unknown domain; Domain incorrectly pointing to this server.".data }

/-- Classification of the first chunk (httpns.js:173): byte value 22. -/
def firstByteIsTLS : List Char → Bool
  | [] => false
  | c :: _ => c.toNat == 22

/-- What `socketForwarder` decided for a connection. -/
inductive FwdDecision
  | relay (acts : List SpliceAction)
  | http (out : HttpOut)
deriving DecidableEq

/-- Model of `socketForwarder` (httpns.js:169-213) restricted to the
first chunk: the handler is installed with `socket.once`, so no later
chunk is inspected and the decision is a function of the first chunk
alone. -/
def socketForwarder (hasD : List Char → Bool) (cfgPath data : List Char) : FwdDecision :=
  if firstByteIsTLS data then .relay (tlsBranch cfgPath data)
  else .http (plaintextBranch hasD data)

/-! ### Domain registry and SNI resolution (httpns.js:74-99 and 130-140)

A registry entry holds an emitter and a `context` field that the code
inspects with `typeof`: a string means an alias to another domain, a
secure-context object (modelled as an opaque number) means resolved,
and `undefined` means registered but not (yet) resolved. Registries are
total functions from domain name to optional entry context; `none`
means the domain was never registered. -/

/-- Runtime value of a DomainEntry `context` field. -/
inductive CtxVal
  | ctx (c : Nat)
  | str (s : String)
  | undef
deriving DecidableEq

/-- JS truthiness of a `context` field: objects are truthy, strings are
truthy unless empty, `undefined` is falsy. -/
def truthy : CtxVal → Bool
  | .ctx _ => true
  | .str s => s != ""
  | .undef => false

/-- The `domains` map: `none` for a domain never registered, otherwise
the current `context` value of its entry. -/
def Reg : Type := String → Option CtxVal

/-- Model of `as(domain, true)` (httpns.js:74): the entry context when
the domain is registered, JS `undefined` otherwise. -/
def asCtx (reg : Reg) (d : String) : CtxVal :=
  match reg d with
  | none => .undef
  | some v => v

/-- Point update of the registry, used for the alias memoization write. -/
def updateReg (reg : Reg) (d : String) (v : Option CtxVal) : Reg :=
  fun x => if x = d then v else reg x

/-- Model of `SNICallbacks` (httpns.js:130-140). When the entry context
is a string, the target domain context is read from the pre-assignment
registry and memoized into the entry; then the (possibly updated)
context is returned through the callback when truthy, and an
UnsupportedDomain error otherwise. The updated registry is returned
alongside the callback result. -/
def SNICallbacks (reg : Reg) (domain : String) : Reg × Except String CtxVal :=
  let reg1 : Reg :=
    match asCtx reg domain with
    | .str target => updateReg reg domain (some (asCtx reg target))
    | _ => reg
  let context := asCtx reg1 domain
  (reg1, if truthy context then .ok context else .error ("Unsupported domain " ++ domain))

/-! ### Request dispatcher (function `requestForwarder`, httpns.js:154-166)

The decoded request is emitted on the domain emitter looked up by Host
header, then on the global catch-all, then a 5000 ms timeout is set.
When the Host lookup misses, `as` returns `undefined` and the `.emit`
call throws a TypeError, aborting the whole handler before the
catch-all emit and before the timer is set. -/

/-- Steps `requestForwarder` performs, in source order. -/
inductive DispatchStep
  | emitDomain
  | emitCatchAll
  | setTimer (delay : Nat)
deriving DecidableEq

/-- Outcome of one `requestForwarder` invocation. -/
structure ForwardResult where
  steps : List DispatchStep
  threw : Bool
deriving DecidableEq

/-- Model of `requestForwarder` (httpns.js:154-166): a registered Host
performs all three steps; an unregistered Host throws on the first step
and performs none. -/
def requestForwarder (reg : Reg) (host : String) : ForwardResult :=
  match reg host with
  | none => { steps := [], threw := true }
  | some _ => { steps := [.emitDomain, .emitCatchAll, .setTimer 5000], threw := false }

/-- Whether the dispatch timer is ever cancelled before firing, as a
function of when (if at all) a handler wrote the response.
httpns.js:162-165 discards the `setTimeout` return value and the module
contains no `clearTimeout` call, so the timer is cancelled under no
circumstances. -/
def timerCancelled (_handlerWriteTime : Option Nat) : Bool := false

/-- A write on the response stream of a dispatched request. -/
inductive ResWrite
  | handler (t : Nat)
  | timeout500 (t : Nat)
deriving DecidableEq

/-- All writes the response stream of one dispatched request receives,
given the time of the subscriber write (if any): the subscriber write,
plus the 500 head-and-body write at 5000 whenever the timer was not
cancelled. -/
def responseWrites (handlerWriteTime : Option Nat) : List ResWrite :=
  (match handlerWriteTime with
   | some t => [.handler t]
   | none => []) ++
  (if timerCancelled handlerWriteTime then [] else [.timeout500 5000])

/-- Number of `res.end` calls the timeout path performs: one per timer
firing. -/
def timeoutCloses (handlerWriteTime : Option Nat) : Nat :=
  if timerCancelled handlerWriteTime then 0 else 1

/-! ### Certificate loader (module-level `register`, httpns.js:216-234)

Reads the key and cert files (read failures are caught and become
`null`), then builds the secure context only when both reads succeeded.
`createSecureContext` is a Node primitive that throws on malformed
bytes; the call sits outside any catch, so such a throw rejects the
async function and escapes (the registry entry is never touched and no
notification is emitted). -/

/-- Outcome of one loader run. -/
structure LoadOutcome where
  newContext : Option Nat
  emittedRegistry : Bool
  emittedError : Bool
  escaped : Bool
deriving DecidableEq

/-- Model of the module-level `register` (httpns.js:216-234),
parameterized by the filesystem (`none` models a rejected `readFile`,
caught and mapped to `null`) and by `createSecureContext` (an `Except`
models the primitive either returning a context or throwing). -/
def register (readFile : String → Option (List Nat))
    (createSecureContext : List Nat → List Nat → Except Unit Nat)
    (keyPath certPath : String) : LoadOutcome :=
  match readFile keyPath, readFile certPath with
  | some key, some cert =>
    (match createSecureContext key cert with
     | .ok context =>
       { newContext := some context, emittedRegistry := true, emittedError := false, escaped := false }
     | .error _ =>
       { newContext := none, emittedRegistry := false, emittedError := false, escaped := true })
  | _, _ => { newContext := none, emittedRegistry := false, emittedError := true, escaped := false }

/-! ### Configuration setters and lifecycle (httpns.js:57-71, 102-127)

`running` is true when both listeners are bound. The setters throw while
running; the port setter additionally rejects values whose numeric
coercion is NaN. `start` stats the relay-channel path, unlinks it when
its birthtime predates process start, then binds both listeners and
forwards their error events to the main emitter. `stop` closes both
listeners and touches no file. -/

/-- A JS value as the port setter sees it: a number, or something whose
numeric coercion is NaN. -/
inductive JsNum
  | num (n : Int)
  | nan
deriving DecidableEq

/-- Mutable server configuration. -/
structure Config where
  port : Int
  path : List Char
deriving DecidableEq

/-- The Windows named-pipe marker the path setter prepends. -/
def winPipePre : List Char := "\\\\?\\pipe\\".data

/-- Model of `set port` (httpns.js:57-63): the new configuration and the
thrown error message, if any. A throw leaves the configuration as it
was. -/
def setPort (running : Bool) (cfg : Config) (val : JsNum) : Config × Option String :=
  if running then (cfg, some "Cannot assign port while servers are running.")
  else
    match val with
    | .nan => (cfg, some "Assigned port must be a number.")
    | .num n => ({ cfg with port := n }, none)

/-- Model of `set path` (httpns.js:66-71): throws while running,
otherwise stores the value, prefixed with the pipe marker on win32 when
not already present. -/
def setPath (running : Bool) (isWin32 : Bool) (cfg : Config) (val : List Char) : Config × Option String :=
  if running then (cfg, some "Cannot assign path while server is running.")
  else
    ({ cfg with path := (if isWin32 && !(winPipePre.isPrefixOf val) then winPipePre else []) ++ val },
     none)

/-- Externally visible actions of `start` and `stop`. -/
inductive LifeAction
  | unlinkPath
  | listenHttp (port : Int)
  | listenHttps (path : List Char)
  | forwardHttpErrors
  | forwardHttpsErrors
  | closeHttp
  | closeHttps
deriving DecidableEq

/-- Model of `start` (httpns.js:102-123): when the relay-channel path
exists (`birthtime = some b`) and its birthtime lies before process
start (`now - uptime`), the file is unlinked first; in every case both
listeners are then bound and their error events forwarded to the main
emitter, in source order. Times are opaque integers. -/
def startTrace (birthtime : Option Int) (now uptime : Int) (cfg : Config) : List LifeAction :=
  let init := now - uptime
  (match birthtime with
   | some b => if b < init then [.unlinkPath] else []
   | none => []) ++
  [.listenHttp cfg.port, .listenHttps cfg.path, .forwardHttpErrors, .forwardHttpsErrors]

/-- Model of `stop` (httpns.js:126): close both listeners, nothing else. -/
def stopTrace : List LifeAction := [.closeHttp, .closeHttps]

/-! ### Responses as the specification states them

Byte-for-byte response blocks from the external-interface section of the
specification, written independently of the `headers` builder so the
code output can be compared against them. -/

/-- Modelled from the spec: the 308 head for a known domain, with
`Location: https://{host}{path}`. -/
def spec308Head (host path0 : List Char) : List Char :=
  "HTTP/1.1 308 Permanent Redirect\r\nContent-Type: text/plain\r\nLocation: https://".data
    ++ host ++ path0 ++ "\r\nConnection: closed\r\n\r\n".data

/-- Modelled from the spec: the 308 body. -/
def spec308Body : List Char := "Response 308: Redirecting to secured request.".data

/-- Modelled from the spec: the 400 head for unknown or unparsable
requests. -/
def spec400Head : List Char :=
  "HTTP/1.1 400 Bad Request\r\nContent-Type: text/plain\r\nConnection: closed\r\n\r\n".data

/-- Modelled from the spec: the 400 body. -/
def spec400Body : List Char :=
  "Error 400: Unknown domain; Domain incorrectly pointing to this server.".data

/-! ### Concrete instances used by the witness theorems -/

/-- Registry with an alias `a.example` to `b.example`, whose context is
loaded. -/
def regW : Reg := fun d =>
  if d = "a.example" then some (.str "b.example")
  else if d = "b.example" then some (.ctx 7)
  else none

/-- Registry with one loaded domain, one pending domain, and one alias
whose target was never registered. -/
def regResolver : Reg := fun d =>
  if d = "loaded.example" then some (.ctx 3)
  else if d = "pending.example" then some .undef
  else if d = "alias.example" then some (.str "gone.example")
  else none

/-- Registry with a depth-2 alias chain `a.example` to `b.example` to
`c.example`. -/
def regChain : Reg := fun d =>
  if d = "a.example" then some (.str "b.example")
  else if d = "b.example" then some (.str "c.example")
  else none

/-- Registry with a single registered host. -/
def regHosts : Reg := fun d => if d = "known.example" then some (.ctx 1) else none

/-- Membership test with a single known domain, as `has` computes it. -/
def hasDW : List Char → Bool := fun d => d == "known.example".data

/-- A plaintext request chunk for the known domain. -/
def chunkW : List Char := "GET /x HTTP/1.1\r\nHost: known.example\r\n\r\n".data

/-- A first chunk starting with the TLS handshake byte. -/
def tlsChunkW : List Char := [Char.ofNat 22, 'a', 'b']

/-- Later traffic on both sides of a splice. -/
def laterW : Side → List (List Char) := fun s =>
  match s with
  | .sock => ["cd".data, "ef".data]
  | .conn => ["gh".data]

/-- Filesystem on which every read succeeds. -/
def fsAllGood : String → Option (List Nat) := fun _ => some [1, 2]

/-- Filesystem on which the key file is unreadable. -/
def fsMissingKey : String → Option (List Nat) := fun p =>
  if p = "key.pem" then none else some [1]

/-- Context construction that succeeds. -/
def ctxOK : List Nat → List Nat → Except Unit Nat := fun _ _ => .ok 9

/-- Context construction that throws (malformed key or cert bytes). -/
def ctxBad : List Nat → List Nat → Except Unit Nat := fun _ _ => .error ()

/-- Default configuration (httpns.js:21). -/
def cfgW : Config := { port := 6110, path := ".https-sock".data }

/-! ### Helper lemmas about the JS string primitives -/

theorem jsIndexOfA_append_cons (c : Char) (pre t : List Char) (hpre : c ∉ pre) :
    jsIndexOfA c (pre ++ c :: t) = some pre.length := by
  induction pre with
  | nil => simp [jsIndexOfA]
  | cons x xs ih =>
    have hx : x ≠ c := fun h => hpre (by simp [h])
    have hxs : c ∉ xs := fun h => hpre (by simp [h])
    simp [jsIndexOfA, hx, ih hxs]

theorem jsIndexOf_append_cons (c : Char) (pre t : List Char) (hpre : c ∉ pre) :
    jsIndexOf (pre ++ c :: t) c = (pre.length : Int) := by
  simp [jsIndexOf, jsIndexOfA_append_cons c pre t hpre]

theorem jsLastIndexOf_space (m p v : List Char) (hv : ' ' ∉ v) :
    jsLastIndexOf (m ++ ' ' :: (p ++ ' ' :: v)) ' ' = ((m.length + 1 + p.length : Nat) : Int) := by
  have hrev : (m ++ ' ' :: (p ++ ' ' :: v)).reverse
      = v.reverse ++ ' ' :: (p.reverse ++ ' ' :: m.reverse) := by simp
  have hnv : ' ' ∉ v.reverse := by simpa using hv
  rw [jsLastIndexOf, hrev, jsIndexOfA_append_cons ' ' v.reverse _ hnv]
  simp
  omega

theorem jsSubstring_mid (m p v : List Char) :
    jsSubstring (m ++ ' ' :: (p ++ ' ' :: v)) ((m.length : Int) + 1)
      ((m.length + 1 + p.length : Nat) : Int) = p := by
  have hlen : (m ++ ' ' :: (p ++ ' ' :: v)).length = m.length + 1 + p.length + 1 + v.length := by
    simp; omega
  rw [jsSubstring]
  simp only [clampIdx, hlen]
  have h1 : ((m.length : Int) + 1).toNat = m.length + 1 := by omega
  have h2 : ((m.length + 1 + p.length : Nat) : Int).toNat = m.length + 1 + p.length := by omega
  rw [h1, h2]
  have h3 : min (m.length + 1) (m.length + 1 + p.length + 1 + v.length) = m.length + 1 := by omega
  have h4 : min (m.length + 1 + p.length) (m.length + 1 + p.length + 1 + v.length)
      = m.length + 1 + p.length := by omega
  rw [h3, h4]
  have h5 : max (m.length + 1) (m.length + 1 + p.length) = m.length + 1 + p.length := by omega
  have h6 : min (m.length + 1) (m.length + 1 + p.length) = m.length + 1 := by omega
  rw [h5, h6]
  have hsplit : m ++ ' ' :: (p ++ ' ' :: v) = ((m ++ [' ']) ++ p) ++ ' ' :: v := by simp
  rw [hsplit, List.take_left' (by simp; omega)]
  have hd : m.length + 1 = (m ++ [' ']).length := by simp
  rw [hd, List.drop_left]

theorem jsSubstring_tail (pre t : List Char) :
    jsSubstring (pre ++ ' ' :: t) ((pre.length : Int) + 1)
      ((pre ++ ' ' :: t).length : Int) = t := by
  have hlen : (pre ++ ' ' :: t).length = pre.length + 1 + t.length := by simp; omega
  rw [jsSubstring]
  simp only [clampIdx, hlen]
  have h1 : ((pre.length : Int) + 1).toNat = pre.length + 1 := by omega
  have h2 : ((pre.length + 1 + t.length : Nat) : Int).toNat = pre.length + 1 + t.length := by omega
  rw [h1, h2]
  have h3 : min (pre.length + 1) (pre.length + 1 + t.length) = pre.length + 1 := by omega
  have h5 : max (pre.length + 1) (pre.length + 1 + t.length) = pre.length + 1 + t.length := by omega
  rw [min_self, h3, h5, h3]
  have hsplit : pre ++ ' ' :: t = (pre ++ [' ']) ++ t := by simp
  rw [hsplit, List.take_of_length_le (by simp; omega)]
  have hd : pre.length + 1 = (pre ++ [' ']).length := by simp
  rw [hd, List.drop_left]

theorem headers308_eq (d u : List Char) :
    headers 308 [("Content-Type".data, "text/plain".data),
      ("Location".data, "https://".data ++ d ++ u),
      ("Connection".data, "closed".data)] = spec308Head d u := by
  have h308 : (Nat.repr 308).data = ['3', '0', '8'] := rfl
  simp [headers, joinCRLF, statusCodes, spec308Head, List.append_assoc, h308]

theorem headers400_eq :
    headers 400 [("Content-Type".data, "text/plain".data), ("Connection".data, "closed".data)]
      = spec400Head := rfl

/-! ### Claim theorems -/

/-- C2: registering `A` as an alias of `B` while `B` carries a loaded
context `c` makes `resolve(A)` return `c` and memoize it into the entry
of `A`; a second `resolve(A)` returns the memoized context and performs
no further registry write, it still succeeds after the entry of `B` is
deleted (so `B` is not looked up again), and overwriting the context of
`B` with `c'` after the first `resolve(A)` does not change what
`resolve(A)` returns. -/
theorem alias_memoization_confirmed (reg : Reg) (A B : String) (c c' : Nat)
    (hA : reg A = some (.str B)) (hB : reg B = some (.ctx c)) :
    (SNICallbacks reg A).2 = .ok (.ctx c)
    ∧ (SNICallbacks reg A).1 A = some (.ctx c)
    ∧ (SNICallbacks (SNICallbacks reg A).1 A).2 = .ok (.ctx c)
    ∧ (SNICallbacks (SNICallbacks reg A).1 A).1 = (SNICallbacks reg A).1
    ∧ (SNICallbacks (updateReg (SNICallbacks reg A).1 B none) A).2 = .ok (.ctx c)
    ∧ (SNICallbacks (updateReg (SNICallbacks reg A).1 B (some (.ctx c'))) A).2 = .ok (.ctx c) := by
  have hAB : A ≠ B := by
    intro h
    rw [h, hB] at hA
    simp at hA
  refine ⟨?_, ?_, ?_, ?_, ?_, ?_⟩ <;>
    simp [SNICallbacks, asCtx, updateReg, truthy, hA, hB, hAB]

/-- C2 witness: the concrete two-domain registry `regW`. -/
theorem alias_memoization_witness :
    (SNICallbacks regW "a.example").2 = .ok (.ctx 7)
    ∧ (SNICallbacks regW "a.example").1 "a.example" = some (.ctx 7)
    ∧ (SNICallbacks (SNICallbacks regW "a.example").1 "a.example").2 = .ok (.ctx 7)
    ∧ (SNICallbacks (SNICallbacks regW "a.example").1 "a.example").1 = (SNICallbacks regW "a.example").1
    ∧ (SNICallbacks (updateReg (SNICallbacks regW "a.example").1 "b.example" none) "a.example").2
        = .ok (.ctx 7)
    ∧ (SNICallbacks (updateReg (SNICallbacks regW "a.example").1 "b.example"
        (some (.ctx 8))) "a.example").2 = .ok (.ctx 7) :=
  alias_memoization_confirmed regW "a.example" "b.example" 7 8 rfl rfl

/-- C3: `resolve` returns the stored TLS context of every registered
domain whose context is loaded, fails with an UnsupportedDomain error
for an unregistered domain, fails for a registered domain whose
certificate has not finished loading, and fails for an alias whose
target domain is absent. -/
theorem resolve_functional_correctness (reg : Reg) (D1 D2 D3 D4 T : String) (c : Nat)
    (h1 : reg D1 = some (.ctx c)) (h2 : reg D2 = none) (h3 : reg D3 = some .undef)
    (h4 : reg D4 = some (.str T)) (h5 : reg T = none) :
    (SNICallbacks reg D1).2 = .ok (.ctx c)
    ∧ (SNICallbacks reg D2).2 = .error ("Unsupported domain " ++ D2)
    ∧ (SNICallbacks reg D3).2 = .error ("Unsupported domain " ++ D3)
    ∧ (SNICallbacks reg D4).2 = .error ("Unsupported domain " ++ D4) := by
  refine ⟨?_, ?_, ?_, ?_⟩ <;>
    simp [SNICallbacks, asCtx, updateReg, truthy, h1, h2, h3, h4, h5]

/-- C3 witness: the concrete registry `regResolver`. -/
theorem resolve_functional_correctness_witness :
    (SNICallbacks regResolver "loaded.example").2 = .ok (.ctx 3)
    ∧ (SNICallbacks regResolver "nope.example").2 = .error ("Unsupported domain " ++ "nope.example")
    ∧ (SNICallbacks regResolver "pending.example").2
        = .error ("Unsupported domain " ++ "pending.example")
    ∧ (SNICallbacks regResolver "alias.example").2
        = .error ("Unsupported domain " ++ "alias.example") :=
  resolve_functional_correctness regResolver "loaded.example" "nope.example" "pending.example"
    "alias.example" "gone.example" 3 rfl rfl rfl rfl rfl

/-- C4 counterexample: with `a.example` aliased to `b.example` and
`b.example` itself aliased to `c.example`, `resolve(a.example)` does
not fail: the callback is invoked with success carrying the bare string
`c.example` (not a TLS context), and the entry of `a.example` is
rewritten to that string instead of staying untouched. -/
theorem alias_chain_counterexample :
    (SNICallbacks regChain "a.example").2 = .ok (.str "c.example")
    ∧ (SNICallbacks regChain "a.example").1 "a.example" = some (.str "c.example") :=
  ⟨rfl, rfl⟩

/-- C4 amended: with `A` aliased to `B` and `B` itself aliased to a
nonempty domain string `C` (chain depth 2 or a cycle), `resolve(A)`
never produces a usable TLS context: it succeeds with the non-context
string value `C`, which it also memoizes into the entry of `A`. -/
theorem alias_chain_amended (reg : Reg) (A B C : String)
    (hA : reg A = some (.str B)) (hB : reg B = some (.str C)) (hC : C ≠ "") :
    (SNICallbacks reg A).2 = .ok (.str C)
    ∧ (SNICallbacks reg A).1 A = some (.str C)
    ∧ ∀ n : Nat, (SNICallbacks reg A).2 ≠ .ok (.ctx n) := by
  refine ⟨?_, ?_, ?_⟩ <;>
    simp [SNICallbacks, asCtx, updateReg, truthy, hA, hB, hC]

/-- C4 amended witness: the concrete chained registry `regChain`. -/
theorem alias_chain_amended_witness :
    (SNICallbacks regChain "a.example").2 = .ok (.str "c.example")
    ∧ (SNICallbacks regChain "a.example").1 "a.example" = some (.str "c.example")
    ∧ (SNICallbacks regChain "a.example").2 ≠ .ok (.ctx 0) :=
  have h := alias_chain_amended regChain "a.example" "b.example" "c.example" rfl rfl (by decide)
  ⟨h.1, h.2.1, h.2.2 0⟩

/-- C1: code bug. The claim requires that a subscriber write before the
deadline cancels the dispatch timer so that exactly one of the handler
response and the 500 default completes the exchange. httpns.js:162-165
discards the timer handle and the module contains no `clearTimeout`, so
the timer fires unconditionally: a request answered at time 100 still
receives the 500 head-and-end write at 5000, a second write to the
response. The unanswered half of the claim does hold: with no handler
write, the response receives exactly one 500 write and one close. -/
theorem timeout_never_cancelled_code_bug :
    requestForwarder regHosts "known.example"
      = { steps := [.emitDomain, .emitCatchAll, .setTimer 5000], threw := false }
    ∧ timerCancelled (some 100) = false
    ∧ responseWrites (some 100) = [.handler 100, .timeout500 5000]
    ∧ (responseWrites (some 100)).length = 2
    ∧ responseWrites none = [.timeout500 5000]
    ∧ timeoutCloses none = 1 := by
  refine ⟨?_, rfl, rfl, rfl, rfl, rfl⟩
  simp [requestForwarder, regHosts]

/-- C5 counterexample: the only handler the splice installs for a
transport error on the public socket ends the public socket itself;
no action ends the relay connection, so an error on one side does not
tear down both connections. -/
theorem relay_error_counterexample :
    handlersFor (tlsBranch ".https-sock".data tlsChunkW) .sock .errorEv = [[.endSide .sock]]
    ∧ TermAction.endSide .conn ∉ ([.endSide .sock] : List TermAction)
    ∧ handlersFor (tlsBranch ".https-sock".data tlsChunkW) .conn .errorEv = [[.endSide .conn]] := by
  refine ⟨rfl, by decide, rfl⟩

/-- C5 amended: every accepted connection whose first chunk starts with
byte 0x16 is relayed: the forwarder opens the relay connection, the
already-read first chunk is written first and all later public-socket
chunks are piped after it byte-for-byte (and the relay bytes are piped
back unmodified), regardless of the remaining payload; the end of either
side ends the other via the paired end handlers; a transport error on
one side, however, only runs a handler that ends that same side — the
other side is not torn down by the error handler. -/
theorem relay_splice_amended (hasD : List Char → Bool) (cfgPath data : List Char)
    (later : Side → List (List Char)) (htls : firstByteIsTLS data = true) :
    socketForwarder hasD cfgPath data = .relay (tlsBranch cfgPath data)
    ∧ deliveredTo (tlsBranch cfgPath data) .conn later = data ++ (later .sock).flatten
    ∧ deliveredTo (tlsBranch cfgPath data) .sock later = (later .conn).flatten
    ∧ handlersFor (tlsBranch cfgPath data) .conn .endEv = [[.endSide .sock]]
    ∧ handlersFor (tlsBranch cfgPath data) .sock .endEv = [[.endSide .conn]]
    ∧ handlersFor (tlsBranch cfgPath data) .conn .errorEv = [[.endSide .conn]]
    ∧ handlersFor (tlsBranch cfgPath data) .sock .errorEv = [[.endSide .sock]] := by
  refine ⟨?_, ?_, ?_, ?_, ?_, ?_, ?_⟩ <;>
    simp [socketForwarder, htls, tlsBranch, deliveredTo, writesTo, pipedInto, handlersFor]

/-- C5 amended witness: the concrete TLS first chunk `tlsChunkW` with
later traffic `laterW` on both sides. -/
theorem relay_splice_witness :
    socketForwarder hasDW ".https-sock".data tlsChunkW
      = .relay (tlsBranch ".https-sock".data tlsChunkW)
    ∧ deliveredTo (tlsBranch ".https-sock".data tlsChunkW) .conn laterW
        = tlsChunkW ++ (laterW .sock).flatten
    ∧ deliveredTo (tlsBranch ".https-sock".data tlsChunkW) .sock laterW
        = (laterW .conn).flatten
    ∧ handlersFor (tlsBranch ".https-sock".data tlsChunkW) .conn .endEv = [[.endSide .sock]]
    ∧ handlersFor (tlsBranch ".https-sock".data tlsChunkW) .sock .endEv = [[.endSide .conn]]
    ∧ handlersFor (tlsBranch ".https-sock".data tlsChunkW) .conn .errorEv = [[.endSide .conn]]
    ∧ handlersFor (tlsBranch ".https-sock".data tlsChunkW) .sock .errorEv = [[.endSide .sock]] :=
  relay_splice_amended hasDW ".https-sock".data tlsChunkW laterW rfl

/-- C6: on the plaintext path (first byte not 0x16), a first chunk that
parses into at least two lines whose second line carries the Host value
`h` yields exactly the specified 308 response with
`Location: https://{h}{p}` and ends the connection when `h` is a
registered domain (matched by exact string equality on the extracted
value), and exactly the specified 400 response with `Connection: closed`
and end of connection when it is not; a chunk with fewer than two lines
yields the same 400 response. The decision consumes only the first
chunk (`socket.once`). -/
theorem plaintext_routing_confirmed (hasD : List Char → Bool)
    (cfgPath data m p v h : List Char) (rest : List (List Char))
    (hplain : firstByteIsTLS data = false)
    (hparse : splitCRLF (jsTrim data)
      = (m ++ ' ' :: (p ++ ' ' :: v)) :: ("Host:".data ++ ' ' :: h) :: rest)
    (hm : ' ' ∉ m) (hv : ' ' ∉ v) :
    socketForwarder hasD cfgPath data = .http (plaintextBranch hasD data)
    ∧ (hasD h = true →
        plaintextBranch hasD data = { written := spec308Head h p, endBody := spec308Body })
    ∧ (hasD h = false →
        plaintextBranch hasD data = { written := spec400Head, endBody := spec400Body })
    ∧ (∀ data2, (splitCRLF (jsTrim data2)).length ≤ 1 →
        plaintextBranch hasD data2 = { written := spec400Head, endBody := spec400Body }) := by
  have hidx1 : jsIndexOf ("Host:".data ++ ' ' :: h) ' ' = (("Host:".data.length : Nat) : Int) :=
    jsIndexOf_append_cons ' ' _ _ (by decide)
  have hdom : jsSubstring ("Host:".data ++ ' ' :: h)
      (jsIndexOf ("Host:".data ++ ' ' :: h) ' ' + 1)
      ((("Host:".data ++ ' ' :: h).length : Nat) : Int) = h := by
    rw [hidx1]
    exact jsSubstring_tail _ _
  have hidx0 : jsIndexOf (m ++ ' ' :: (p ++ ' ' :: v)) ' ' = ((m.length : Nat) : Int) :=
    jsIndexOf_append_cons ' ' _ _ hm
  have hurl : jsSubstring (m ++ ' ' :: (p ++ ' ' :: v))
      (jsIndexOf (m ++ ' ' :: (p ++ ' ' :: v)) ' ' + 1)
      (jsLastIndexOf (m ++ ' ' :: (p ++ ' ' :: v)) ' ') = p := by
    rw [hidx0, jsLastIndexOf_space m p v hv]
    exact jsSubstring_mid m p v
  refine ⟨by simp [socketForwarder, hplain], ?_, ?_, ?_⟩
  · intro hh
    simp only [plaintextBranch, hparse, List.getD_cons_zero, List.getD_cons_succ,
      List.length_cons]
    rw [if_pos (by omega), hdom, hurl, hh]
    have h308 : (Nat.repr 308).data = ['3', '0', '8'] := rfl
    simp [headers, joinCRLF, statusCodes, spec308Head, spec308Body, List.append_assoc, h308]
  · intro hh
    simp only [plaintextBranch, hparse, List.getD_cons_zero, List.getD_cons_succ,
      List.length_cons]
    rw [if_pos (by omega), hdom, hurl, hh]
    have h400 : (Nat.repr 400).data = ['4', '0', '0'] := rfl
    simp [headers, joinCRLF, statusCodes, spec400Head, spec400Body, List.append_assoc, h400]
  · intro data2 hlen
    simp only [plaintextBranch]
    rw [if_neg (by omega)]
    rfl

/-- C6 witness: the concrete chunk `GET /x HTTP/1.1` with Host
`known.example`, against the one-domain membership test `hasDW`. -/
theorem plaintext_routing_witness :
    plaintextBranch hasDW chunkW
      = { written := spec308Head "known.example".data "/x".data, endBody := spec308Body } :=
  (plaintext_routing_confirmed hasDW ".https-sock".data chunkW "GET".data "/x".data
    "HTTP/1.1".data "known.example".data [] rfl rfl (by decide) (by decide)).2.1 rfl

/-- C7 counterexample: with both key and cert files readable but the
bytes malformed (`createSecureContext` throws), the loader emits no
error notification and the failure escapes the load call as an
unhandled rejection — the construction throw at httpns.js:222 sits
outside any catch. Only the entry-stays-Unresolved part of the claim
survives. -/
theorem loader_escape_counterexample :
    (register fsAllGood ctxBad "key.pem" "cert.pem").emittedError = false
    ∧ (register fsAllGood ctxBad "key.pem" "cert.pem").escaped = true
    ∧ (register fsAllGood ctxBad "key.pem" "cert.pem").newContext = none := by
  refine ⟨rfl, rfl, rfl⟩

/-- C7 amended: a missing or unreadable key or cert file is caught at
origin and converted to an error notification, with the entry context
left untouched and no retry; a construction failure on malformed bytes,
by contrast, leaves the entry untouched, emits nothing, and escapes the
load call uncaught. -/
theorem loader_amended (readFile : String → Option (List Nat))
    (createSecureContext : List Nat → List Nat → Except Unit Nat)
    (keyPath certPath : String) (key cert : List Nat) :
    ((readFile keyPath = none ∨ readFile certPath = none) →
      register readFile createSecureContext keyPath certPath
        = { newContext := none, emittedRegistry := false, emittedError := true, escaped := false })
    ∧ (readFile keyPath = some key → readFile certPath = some cert →
        createSecureContext key cert = .error () →
      register readFile createSecureContext keyPath certPath
        = { newContext := none, emittedRegistry := false, emittedError := false,
            escaped := true }) := by
  constructor
  · rintro (hk | hc)
    · cases hc : readFile certPath <;> simp [register, hk, hc]
    · cases hk : readFile keyPath <;> simp [register, hk, hc]
  · intro hk hc hb
    simp [register, hk, hc, hb]

/-- C7 amended witness: a missing key file with good construction, and
good files with malformed bytes. -/
theorem loader_amended_witness :
    register fsMissingKey ctxOK "key.pem" "cert.pem"
      = { newContext := none, emittedRegistry := false, emittedError := true, escaped := false }
    ∧ register fsAllGood ctxBad "key.pem" "cert.pem"
      = { newContext := none, emittedRegistry := false, emittedError := false,
          escaped := true } :=
  ⟨(loader_amended fsMissingKey ctxOK "key.pem" "cert.pem" [] []).1 (Or.inl rfl),
   (loader_amended fsAllGood ctxBad "key.pem" "cert.pem" [1, 2] [1, 2]).2 rfl rfl rfl⟩

/-- C8 counterexample: with the server not running, assigning the port a
value whose numeric coercion is NaN throws a configuration error and
leaves the configuration unchanged — so assignment before start or
after stop does not always succeed. -/
theorem config_setter_counterexample :
    setPort false cfgW .nan = (cfgW, some "Assigned port must be a number.") := rfl

/-- C8 amended: assigning port or path while the server is running
always fails with a configuration error and leaves the configuration
unchanged; while not running, assigning the path always succeeds, and
assigning the port succeeds exactly when the value is numeric — a
non-numeric value fails with a configuration error and leaves the
configuration unchanged. -/
theorem config_setter_amended (cfg : Config) (n : Int) (w : Bool) (val : List Char) :
    (setPort true cfg (.num n) = (cfg, some "Cannot assign port while servers are running.")
      ∧ setPort true cfg .nan = (cfg, some "Cannot assign port while servers are running.")
      ∧ setPath true w cfg val = (cfg, some "Cannot assign path while server is running."))
    ∧ (setPort false cfg (.num n)).2 = none
    ∧ (setPort false cfg (.num n)).1.port = n
    ∧ setPort false cfg .nan = (cfg, some "Assigned port must be a number.")
    ∧ (setPath false w cfg val).2 = none := by
  refine ⟨⟨rfl, rfl, rfl⟩, rfl, rfl, rfl, rfl⟩

/-- C9: when the relay-channel address file exists with a birthtime
before process start (now minus uptime), `start` unlinks it before
binding; when the file is absent it binds directly; when present and
fresh it binds anyway, with both listeners' error events forwarded to
the process-wide error notification (so a bind conflict surfaces as an
error); `stop` closes both listeners and never unlinks the relay-channel
address. -/
theorem lifecycle_confirmed (birth now uptime bfresh : Int) (cfg : Config)
    (hstale : birth < now - uptime) (hfresh : ¬ bfresh < now - uptime) :
    startTrace (some birth) now uptime cfg
      = [.unlinkPath, .listenHttp cfg.port, .listenHttps cfg.path,
         .forwardHttpErrors, .forwardHttpsErrors]
    ∧ startTrace none now uptime cfg
      = [.listenHttp cfg.port, .listenHttps cfg.path, .forwardHttpErrors, .forwardHttpsErrors]
    ∧ startTrace (some bfresh) now uptime cfg
      = [.listenHttp cfg.port, .listenHttps cfg.path, .forwardHttpErrors, .forwardHttpsErrors]
    ∧ LifeAction.forwardHttpErrors ∈ startTrace (some bfresh) now uptime cfg
    ∧ LifeAction.forwardHttpsErrors ∈ startTrace (some bfresh) now uptime cfg
    ∧ stopTrace = [.closeHttp, .closeHttps]
    ∧ LifeAction.unlinkPath ∉ stopTrace := by
  refine ⟨?_, ?_, ?_, ?_, ?_, rfl, ?_⟩ <;>
    simp [startTrace, stopTrace, hstale, hfresh]

/-- C9 witness: birthtime 0 against process start 90 (now 100, uptime
10), and fresh birthtime 95. -/
theorem lifecycle_witness :
    startTrace (some 0) 100 10 cfgW
      = [.unlinkPath, .listenHttp cfgW.port, .listenHttps cfgW.path,
         .forwardHttpErrors, .forwardHttpsErrors]
    ∧ startTrace none 100 10 cfgW
      = [.listenHttp cfgW.port, .listenHttps cfgW.path, .forwardHttpErrors, .forwardHttpsErrors]
    ∧ startTrace (some 95) 100 10 cfgW
      = [.listenHttp cfgW.port, .listenHttps cfgW.path, .forwardHttpErrors, .forwardHttpsErrors]
    ∧ LifeAction.forwardHttpErrors ∈ startTrace (some 95) 100 10 cfgW
    ∧ LifeAction.forwardHttpsErrors ∈ startTrace (some 95) 100 10 cfgW
    ∧ stopTrace = [.closeHttp, .closeHttps]
    ∧ LifeAction.unlinkPath ∉ stopTrace :=
  lifecycle_confirmed 0 100 10 95 cfgW (by decide) (by decide)

/-- C10: dispatching a decoded request whose Host header is not a
registered domain finds no event channel: the `.emit` on the undefined
lookup throws, so the whole forwarder aborts with no domain emit, no
global catch-all notification, and no timeout set for that request. -/
theorem dispatch_requires_registered_host (reg : Reg) (host : String)
    (h : reg host = none) :
    requestForwarder reg host = { steps := [], threw := true }
    ∧ DispatchStep.emitCatchAll ∉ (requestForwarder reg host).steps
    ∧ DispatchStep.setTimer 5000 ∉ (requestForwarder reg host).steps := by
  refine ⟨?_, ?_, ?_⟩ <;> simp [requestForwarder, h]

/-- C10 witness: the host `other.example` against the one-domain
registry `regHosts`. -/
theorem dispatch_requires_registered_host_witness :
    requestForwarder regHosts "other.example" = { steps := [], threw := true }
    ∧ DispatchStep.emitCatchAll ∉ (requestForwarder regHosts "other.example").steps
    ∧ DispatchStep.setTimer 5000 ∉ (requestForwarder regHosts "other.example").steps :=
  dispatch_requires_registered_host regHosts "other.example" rfl
